import Mathlib

/-!
Verification of the Summary_Tool pipeline: shallow embedding of the chunker
(`Summarizer._chunk_text`), the hierarchical summarizer (`Summarizer.summarize`,
`Summarizer.create_summaries`), the document lifecycle functions of `app.py`
(`process_single_pdf`, `download_pdf_file`) and the filename derivation of
`pdf_processor.py` (`PDFProcessor._get_filename_from_url`), together with
theorems settling the stated properties.
-/

/-! ### Chunker (`summarizer.py`, `Summarizer._chunk_text`) -/

/-- Splits a character list at whitespace characters, keeping empty pieces;
`acc` holds the characters of the piece under construction, in reverse. -/
def splitWsAux : List Char → List Char → List String
  | [], acc => [String.mk acc.reverse]
  | c :: cs, acc =>
    if c.isWhitespace then String.mk acc.reverse :: splitWsAux cs []
    else splitWsAux cs (c :: acc)

/-- Python's `str.split()` with no argument: split on whitespace runs,
dropping empty pieces. Whitespace is modelled by `Char.isWhitespace`. -/
def pySplit (s : String) : List String :=
  (splitWsAux s.data []).filter (fun w => w ≠ "")

/-- Python's `' '.join(ws)`. -/
def pyJoin : List String → String
  | [] => ""
  | [w] => w
  | w :: ws => w ++ " " ++ pyJoin ws

/-- The accumulated `current_length` of `_chunk_text`: each word contributes
`len(word) + 1` (the `+1` is for the space). -/
def sumLen (ws : List String) : Nat :=
  (ws.map (fun w => w.length + 1)).sum

/-- The `for word in words` loop of `_chunk_text` (summarizer.py lines 74-85),
returning each flushed `current_chunk` as a list of words.  The source appends
`' '.join(current_chunk)` to `chunks` at each flush; here the join (`pyJoin`)
is applied by `chunkText` after the loop, which yields the same list of
strings.  State: `current` is `current_chunk`, `currentLength` is
`current_length`. -/
def chunkLoop (maxChars : Nat) (current : List String) (currentLength : Nat) :
    List String → List (List String)
  | [] => if current.isEmpty then [] else [current]
  | w :: ws =>
    if currentLength + (w.length + 1) > maxChars then
      current :: chunkLoop maxChars [w] (w.length + 1) ws
    else
      chunkLoop maxChars (current ++ [w]) (currentLength + (w.length + 1)) ws

/-- The word-group decomposition produced by `_chunk_text` on the long-text
path (`words = text.split()`, loop started with empty chunk and length 0). -/
def chunkTextParts (text : String) (maxChars : Nat) : List (List String) :=
  chunkLoop maxChars [] 0 (pySplit text)

/-- `Summarizer._chunk_text(text, max_chars)` (summarizer.py lines 55-87):
texts of length at most `max_chars` are returned as a single chunk; longer
texts are split on whitespace tokens and re-joined with single spaces. -/
def chunkText (text : String) (maxChars : Nat) : List String :=
  if text.length ≤ maxChars then [text]
  else (chunkTextParts text maxChars).map pyJoin

theorem sumLen_cons (w : String) (ws : List String) :
    sumLen (w :: ws) = w.length + 1 + sumLen ws := by
  simp [sumLen]

theorem pyJoin_length (ws : List String) (h : ws ≠ []) :
    (pyJoin ws).length + 1 = sumLen ws := by
  induction ws with
  | nil => exact absurd rfl h
  | cons w ws ih =>
    cases ws with
    | nil => simp [pyJoin, sumLen]
    | cons x t =>
      have hx := ih (by simp)
      have hone : (" " : String).length = 1 := rfl
      simp only [sumLen_cons] at hx
      simp only [pyJoin, String.length_append, sumLen_cons, hone]
      omega

theorem chunkLoop_flatten (maxChars : Nat) (ws : List String) :
    ∀ current currentLength,
      (chunkLoop maxChars current currentLength ws).flatten = current ++ ws := by
  induction ws with
  | nil =>
    intro current currentLength
    cases current <;> simp [chunkLoop]
  | cons w ws ih =>
    intro current currentLength
    simp only [chunkLoop]
    by_cases h : currentLength + (w.length + 1) > maxChars
    · simp [h, ih]
    · simp [h, ih]

theorem chunkLoop_bound (maxChars : Nat) (ws : List String) :
    ∀ current currentLength,
      currentLength = sumLen current →
      (currentLength ≤ maxChars ∨ ∃ w, current = [w]) →
      ∀ part ∈ chunkLoop maxChars current currentLength ws,
        (pyJoin part).length ≤ maxChars ∨ ∃ w, part = [w] := by
  induction ws with
  | nil =>
    intro current currentLength hlen hok part hpart
    cases current with
    | nil => simp [chunkLoop] at hpart
    | cons a t =>
      simp only [chunkLoop] at hpart
      simp at hpart
      subst hpart
      rcases hok with hle | hw
      · left
        have := pyJoin_length (a :: t) (by simp)
        omega
      · right; exact hw
  | cons w ws ih =>
    intro current currentLength hlen hok part hpart
    simp only [chunkLoop] at hpart
    by_cases h : currentLength + (w.length + 1) > maxChars
    · simp only [h, if_true, List.mem_cons] at hpart
      rcases hpart with rfl | hpart
      · rcases hok with hle | hw
        · by_cases hc : part = []
          · left; simp [hc, pyJoin]
          · left
            have := pyJoin_length part hc
            omega
        · right; exact hw
      · exact ih [w] (w.length + 1) (by simp [sumLen]) (Or.inr ⟨w, rfl⟩) part hpart
    · simp only [h, if_false] at hpart
      refine ih (current ++ [w]) (currentLength + (w.length + 1)) ?_ ?_ part hpart
      · simp [sumLen, hlen]
      · left; omega

/-- C4: for a text longer than `max_chars`, `_chunk_text` splits only at
whitespace-token boundaries: the chunks are the space-joins of a partition of
the token list (so concatenating the chunks in order reproduces the token
sequence and no chunk boundary falls inside a token), and every chunk is of
length at most `max_chars` except a chunk that is a single token longer than
`max_chars`, passed through whole. -/
theorem chunkText_token_partition (text : String) (maxChars : Nat)
    (h : maxChars < text.length) :
    ∃ parts : List (List String),
      parts.flatten = pySplit text ∧
      chunkText text maxChars = parts.map pyJoin ∧
      ∀ part ∈ parts, (pyJoin part).length ≤ maxChars ∨
        ∃ w, part = [w] ∧ maxChars < w.length := by
  refine ⟨chunkTextParts text maxChars, ?_, ?_, ?_⟩
  · simpa [chunkTextParts] using chunkLoop_flatten maxChars (pySplit text) [] 0
  · simp [chunkText, Nat.not_le.mpr h]
  · intro part hpart
    have := chunkLoop_bound maxChars (pySplit text) [] 0 (by simp [sumLen])
      (Or.inl (Nat.zero_le _)) part hpart
    rcases this with hle | ⟨w, rfl⟩
    · exact Or.inl hle
    · by_cases hw : maxChars < w.length
      · exact Or.inr ⟨w, rfl, hw⟩
      · left
        simpa [pyJoin] using Nat.le_of_not_lt hw

theorem chunkText_token_partition_witness :
    4 < ("aaa bb cc" : String).length ∧
    ∃ parts : List (List String),
      parts.flatten = pySplit "aaa bb cc" ∧
      chunkText "aaa bb cc" 4 = parts.map pyJoin ∧
      ∀ part ∈ parts, (pyJoin part).length ≤ 4 ∨
        ∃ w, part = [w] ∧ 4 < w.length :=
  ⟨by decide, chunkText_token_partition "aaa bb cc" 4 (by decide)⟩

/-- C10: for a text longer than `max_chars` whose first whitespace token has
length at least `max_chars`, the loop's first flush happens with
`current_chunk` still empty, so the first returned chunk is the empty string
and the oversized token lands in a later chunk. -/
theorem chunkText_empty_first_chunk (text : String) (maxChars : Nat)
    (h : maxChars < text.length) (w : String) (rest : List String)
    (hsplit : pySplit text = w :: rest) (hw : maxChars ≤ w.length) :
    ∃ restParts : List (List String),
      chunkTextParts text maxChars = [] :: restParts ∧
      chunkText text maxChars = "" :: restParts.map pyJoin ∧
      restParts.flatten = w :: rest := by
  have hcond : maxChars < w.length + 1 := by omega
  have hparts : chunkTextParts text maxChars =
      [] :: chunkLoop maxChars [w] (w.length + 1) rest := by
    simp [chunkTextParts, hsplit, chunkLoop, hcond]
  refine ⟨chunkLoop maxChars [w] (w.length + 1) rest, hparts, ?_, ?_⟩
  · simp [chunkText, Nat.not_le.mpr h, hparts, pyJoin]
  · simpa using chunkLoop_flatten maxChars rest [w] (w.length + 1)

theorem chunkText_empty_first_chunk_witness :
    (4 < ("aaaa bb" : String).length ∧ pySplit "aaaa bb" = "aaaa" :: ["bb"] ∧
      4 ≤ ("aaaa" : String).length) ∧
    ∃ restParts : List (List String),
      chunkTextParts "aaaa bb" 4 = [] :: restParts ∧
      chunkText "aaaa bb" 4 = "" :: restParts.map pyJoin ∧
      restParts.flatten = "aaaa" :: ["bb"] :=
  ⟨⟨by decide, by decide, by decide⟩,
    chunkText_empty_first_chunk "aaaa bb" 4 (by decide) "aaaa" ["bb"]
      (by decide) (by decide)⟩

/-! ### Hierarchical summarizer (`summarizer.py`, `Summarizer.summarize` and
`Summarizer.create_summaries`)

The provider backends (`_summarize_with_claude` / `_summarize_with_openai` /
`_summarize_with_openrouter`) share one external contract: a call on
`(text, prompt)` returning the `(success, summary, error_message)` triple.
They are modelled by an oracle `Provider`.  Alongside each result we return
the list of `(text, prompt)` pairs handed to the provider, in call order. -/

/-- The `(success, summary, error_message)` triple returned by the provider
wrappers and by `Summarizer.summarize`. -/
structure ProvResult where
  success : Bool
  summary : String
  error : String
deriving DecidableEq, Repr

/-- An abstract provider backend: `(text, prompt) ↦ result`. -/
abbrev Provider : Type := String → String → ProvResult

/-- One provider invocation, recorded as its `(text, prompt)` arguments. -/
abbrev Call : Type := String × String

/-- The per-chunk prompt of the multi-chunk loop (summarizer.py line 245). -/
def chunkPromptOf (prompt : String) (i total : Nat) : String :=
  prompt ++ "\n\n(This is part " ++ toString i ++ " of " ++ toString total
    ++ " of the document)"

/-- The reduce-pass prompt (summarizer.py line 264). -/
def finalPromptOf (prompt : String) : String :=
  prompt ++ "\n\nPlease create a final consolidated summary from these partial summaries:"

/-- The labelled part-summary built on chunk success (summarizer.py
line 257). -/
def partLabel (i : Nat) (summary : String) : String :=
  "[Part " ++ toString i ++ "]\n" ++ summary

/-- The `for i, chunk in enumerate(chunks, 1)` loop of `Summarizer.summarize`
(summarizer.py lines 244-257): summarize each chunk in order; on the first
failure stop with the 1-based failing index and its error; on success collect
the labelled part-summaries.  Also returns the provider calls made. -/
def summarizeLoop (prov : Provider) (prompt : String) (total : Nat) :
    List String → Nat → List Call × Except (Nat × String) (List String)
  | [], _ => ([], Except.ok [])
  | c :: cs, i =>
    let p := chunkPromptOf prompt i total
    let r := prov c p
    if r.success then
      let res := summarizeLoop prov prompt total cs (i + 1)
      ((c, p) :: res.1, res.2.map (fun ss => partLabel i r.summary :: ss))
    else ([(c, p)], Except.error (i, r.error))

/-- The body of `Summarizer.summarize` after chunking (summarizer.py lines
232-273), taking the chunk list as an argument; `summarize` instantiates it
with `_chunk_text(text, 100000)`.  On a single chunk the provider is invoked
on the original `text`; on chunk failure `(False, "", "Error in chunk i: …")`
is returned; on success the labelled part-summaries are joined with blank
lines, and when there are more than 3 chunks one further reduce-pass call on
the joined text yields the result. -/
def summarizeFromChunks (prov : Provider) (chunks : List String)
    (text prompt : String) : ProvResult × List Call :=
  if chunks.length = 1 then (prov text prompt, [(text, prompt)])
  else
    match summarizeLoop prov prompt chunks.length chunks 1 with
    | (log, Except.error ie) =>
        (⟨false, "", "Error in chunk " ++ toString ie.1 ++ ": " ++ ie.2⟩, log)
    | (log, Except.ok summaries) =>
        let combined := String.intercalate "\n\n" summaries
        if chunks.length > 3 then
          (prov combined (finalPromptOf prompt), log ++ [(combined, finalPromptOf prompt)])
        else ((⟨true, combined, ""⟩ : ProvResult), log)

/-- `Summarizer.summarize(text, prompt)` (summarizer.py lines 218-273). -/
def summarizeS (prov : Provider) (text prompt : String) : ProvResult × List Call :=
  summarizeFromChunks prov (chunkText text 100000) text prompt

/-- The fixed lead-in prepended to the long summary to form the short-summary
input (summarizer.py line 297). -/
def shortLeadIn : String :=
  "Here is a detailed summary of a document. Please generate a very concise short summary based on this:\n\n"

/-- The `(success, long_summary, short_summary, error_message)` quadruple
returned by `Summarizer.create_summaries`. -/
structure SummariesResult where
  success : Bool
  longSummary : String
  shortSummary : String
  error : String
deriving DecidableEq, Repr

/-- `Summarizer.create_summaries(text, long_prompt, short_prompt)`
(summarizer.py lines 275-304).  The `time.sleep(2)` rate-limit delay between
the two phases has no data effect and is elided. -/
def createSummaries (prov : Provider) (text longPrompt shortPrompt : String) :
    SummariesResult × List Call :=
  let r1 := summarizeS prov text longPrompt
  if !r1.1.success then
    ((⟨false, "", "", "Long summary error: " ++ r1.1.error⟩ : SummariesResult), r1.2)
  else
    let ctx := shortLeadIn ++ r1.1.summary
    let r2 := summarizeS prov ctx shortPrompt
    if !r2.1.success then
      ((⟨false, r1.1.summary, "", "Short summary error: " ++ r2.1.error⟩ : SummariesResult),
        r1.2 ++ r2.2)
    else
      ((⟨true, r1.1.summary, r2.1.summary, ""⟩ : SummariesResult), r1.2 ++ r2.2)

/-- The calls the multi-chunk loop makes when every chunk succeeds: one per
chunk, in order, with the per-part prompts. -/
def loopCalls (prompt : String) (total : Nat) : List String → Nat → List Call
  | [], _ => []
  | c :: cs, i => (c, chunkPromptOf prompt i total) :: loopCalls prompt total cs (i + 1)

/-- The labelled part-summaries the loop collects when every chunk
succeeds. -/
def loopSummaries (prov : Provider) (prompt : String) (total : Nat) :
    List String → Nat → List String
  | [], _ => []
  | c :: cs, i =>
    partLabel i (prov c (chunkPromptOf prompt i total)).summary
      :: loopSummaries prov prompt total cs (i + 1)

/-- Decidable statement that the provider succeeds on every chunk of the
loop, with the loop's own prompts. -/
def allSucceed (prov : Provider) (prompt : String) (total : Nat) :
    List String → Nat → Bool
  | [], _ => true
  | c :: cs, i =>
    (prov c (chunkPromptOf prompt i total)).success
      && allSucceed prov prompt total cs (i + 1)

theorem loopCalls_length (prompt : String) (total : Nat) (cs : List String) :
    ∀ i, (loopCalls prompt total cs i).length = cs.length := by
  induction cs with
  | nil => intro i; rfl
  | cons c cs ih => intro i; simp [loopCalls, ih]

theorem summarizeLoop_ok (prov : Provider) (prompt : String) (total : Nat)
    (cs : List String) :
    ∀ i, allSucceed prov prompt total cs i = true →
      summarizeLoop prov prompt total cs i =
        (loopCalls prompt total cs i,
         Except.ok (loopSummaries prov prompt total cs i)) := by
  induction cs with
  | nil => intro i _; rfl
  | cons c cs ih =>
    intro i hall
    simp only [allSucceed, Bool.and_eq_true] at hall
    simp [summarizeLoop, hall.1, ih (i + 1) hall.2, loopCalls, loopSummaries,
      Except.map]

theorem summarizeLoop_err (prov : Provider) (prompt : String) (total : Nat)
    (c : String) (post : List String) (pre : List String) :
    ∀ i, allSucceed prov prompt total pre i = true →
      (prov c (chunkPromptOf prompt (i + pre.length) total)).success = false →
      summarizeLoop prov prompt total (pre ++ c :: post) i =
        (loopCalls prompt total pre i
           ++ [(c, chunkPromptOf prompt (i + pre.length) total)],
         Except.error (i + pre.length,
           (prov c (chunkPromptOf prompt (i + pre.length) total)).error)) := by
  induction pre with
  | nil =>
    intro i _ hfail
    simp only [List.nil_append, List.length_nil, Nat.add_zero] at hfail ⊢
    simp [summarizeLoop, hfail, loopCalls]
  | cons a pre ih =>
    intro i hall hfail
    simp only [allSucceed, Bool.and_eq_true] at hall
    have hidx : i + (a :: pre).length = i + 1 + pre.length := by
      simp only [List.length_cons]; omega
    rw [hidx] at hfail
    have hrec := ih (i + 1) hall.2 hfail
    rw [hidx]
    simp [List.cons_append, summarizeLoop, hall.1, hrec, loopCalls, Except.map]

/-- C5: with every chunk call succeeding, a chunk count above 3 makes
`Summarizer.summarize` issue exactly one additional reduce-pass call — the
call log is one call per chunk plus a single final call on the blank-line
concatenation of the labelled part-summaries with the consolidation prompt,
and that call's output is the returned result — while a chunk count of 2 or 3
issues no reduce call and returns the labelled concatenation itself. -/
theorem summarize_reduce_pass (prov : Provider) (chunks : List String)
    (text prompt : String)
    (hall : allSucceed prov prompt chunks.length chunks 1 = true) :
    (loopCalls prompt chunks.length chunks 1).length = chunks.length ∧
    (3 < chunks.length →
      summarizeFromChunks prov chunks text prompt =
        (prov (String.intercalate "\n\n" (loopSummaries prov prompt chunks.length chunks 1))
           (finalPromptOf prompt),
         loopCalls prompt chunks.length chunks 1
           ++ [(String.intercalate "\n\n" (loopSummaries prov prompt chunks.length chunks 1),
                finalPromptOf prompt)])) ∧
    (2 ≤ chunks.length → chunks.length ≤ 3 →
      summarizeFromChunks prov chunks text prompt =
        ((⟨true, String.intercalate "\n\n" (loopSummaries prov prompt chunks.length chunks 1),
            ""⟩ : ProvResult),
         loopCalls prompt chunks.length chunks 1)) := by
  refine ⟨loopCalls_length prompt chunks.length chunks 1, ?_, ?_⟩
  · intro h4
    have h1 : ¬ chunks.length = 1 := by omega
    simp [summarizeFromChunks, h1, h4,
      summarizeLoop_ok prov prompt chunks.length chunks 1 hall]
  · intro h2 h3
    have h1 : ¬ chunks.length = 1 := by omega
    have h4 : ¬ chunks.length > 3 := by omega
    simp [summarizeFromChunks, h1, h4,
      summarizeLoop_ok prov prompt chunks.length chunks 1 hall]

/-- A provider oracle that always succeeds with summary `"S"`. -/
def provOk : Provider := fun _ _ => ⟨true, "S", ""⟩

theorem summarize_reduce_pass_witness :
    allSucceed provOk "p" (["a", "b", "c", "d"] : List String).length
        ["a", "b", "c", "d"] 1 = true ∧
    ((loopCalls "p" (["a", "b", "c", "d"] : List String).length ["a", "b", "c", "d"] 1).length
        = (["a", "b", "c", "d"] : List String).length ∧
      (3 < (["a", "b", "c", "d"] : List String).length →
        summarizeFromChunks provOk ["a", "b", "c", "d"] "t" "p" =
          (provOk (String.intercalate "\n\n"
               (loopSummaries provOk "p" (["a", "b", "c", "d"] : List String).length
                 ["a", "b", "c", "d"] 1))
             (finalPromptOf "p"),
           loopCalls "p" (["a", "b", "c", "d"] : List String).length ["a", "b", "c", "d"] 1
             ++ [(String.intercalate "\n\n"
                   (loopSummaries provOk "p" (["a", "b", "c", "d"] : List String).length
                     ["a", "b", "c", "d"] 1),
                 finalPromptOf "p")])) ∧
      (2 ≤ (["a", "b", "c", "d"] : List String).length →
        (["a", "b", "c", "d"] : List String).length ≤ 3 →
        summarizeFromChunks provOk ["a", "b", "c", "d"] "t" "p" =
          ((⟨true, String.intercalate "\n\n"
              (loopSummaries provOk "p" (["a", "b", "c", "d"] : List String).length
                ["a", "b", "c", "d"] 1), ""⟩ : ProvResult),
           loopCalls "p" (["a", "b", "c", "d"] : List String).length ["a", "b", "c", "d"] 1))) :=
  ⟨by decide, summarize_reduce_pass provOk ["a", "b", "c", "d"] "t" "p" (by decide)⟩

/-- C6: in multi-chunk summarization, if the provider fails on the `i`-th
chunk (1-based) after succeeding on all earlier ones, `Summarizer.summarize`
returns failure with summary `""` and error exactly
`"Error in chunk i: <cause>"`, and the call log stops at the failing chunk —
no partial results are returned. -/
theorem summarize_chunk_failure (prov : Provider) (pre post : List String)
    (c : String) (text prompt : String)
    (hlen : 2 ≤ (pre ++ c :: post).length)
    (hc : (prov c (chunkPromptOf prompt (1 + pre.length)
        (pre ++ c :: post).length)).success = false)
    (hpre : allSucceed prov prompt (pre ++ c :: post).length pre 1 = true) :
    summarizeFromChunks prov (pre ++ c :: post) text prompt =
      ((⟨false, "",
          "Error in chunk " ++ toString (1 + pre.length) ++ ": "
            ++ (prov c (chunkPromptOf prompt (1 + pre.length)
                  (pre ++ c :: post).length)).error⟩ : ProvResult),
        loopCalls prompt (pre ++ c :: post).length pre 1
          ++ [(c, chunkPromptOf prompt (1 + pre.length) (pre ++ c :: post).length)]) := by
  have h1 : ¬ (pre ++ c :: post).length = 1 := by
    simp only [List.length_append, List.length_cons] at hlen ⊢; omega
  have herr := summarizeLoop_err prov prompt (pre ++ c :: post).length c post pre 1 hpre hc
  unfold summarizeFromChunks
  rw [if_neg h1, herr]

/-- A provider oracle that fails exactly on the chunk text `"b"`. -/
def provFailB : Provider :=
  fun t _ => if t = "b" then ⟨false, "", "boom"⟩ else ⟨true, "S", ""⟩

theorem summarize_chunk_failure_witness :
    (2 ≤ ((["a"] : List String) ++ "b" :: ["c"]).length ∧
      (provFailB "b" (chunkPromptOf "p" (1 + (["a"] : List String).length)
          ((["a"] : List String) ++ "b" :: ["c"]).length)).success = false ∧
      allSucceed provFailB "p" ((["a"] : List String) ++ "b" :: ["c"]).length ["a"] 1 = true) ∧
    summarizeFromChunks provFailB ((["a"] : List String) ++ "b" :: ["c"]) "t" "p" =
      ((⟨false, "",
          "Error in chunk " ++ toString (1 + (["a"] : List String).length) ++ ": "
            ++ (provFailB "b" (chunkPromptOf "p" (1 + (["a"] : List String).length)
                  ((["a"] : List String) ++ "b" :: ["c"]).length)).error⟩ : ProvResult),
        loopCalls "p" ((["a"] : List String) ++ "b" :: ["c"]).length ["a"] 1
          ++ [("b", chunkPromptOf "p" (1 + (["a"] : List String).length)
                ((["a"] : List String) ++ "b" :: ["c"]).length)]) :=
  ⟨⟨by decide, by decide, by decide⟩,
    summarize_chunk_failure provFailB ["a"] ["c"] "b" "t" "p"
      (by decide) (by decide) (by decide)⟩

theorem createSummaries_calls_split (prov : Provider)
    (t longPrompt shortPrompt : String)
    (ht : (summarizeS prov t longPrompt).1.success = true) :
    (createSummaries prov t longPrompt shortPrompt).2 =
      (summarizeS prov t longPrompt).2
        ++ (summarizeS prov (shortLeadIn ++ (summarizeS prov t longPrompt).1.summary)
             shortPrompt).2 := by
  simp only [createSummaries, ht]
  by_cases hr2 : (summarizeS prov
      (shortLeadIn ++ (summarizeS prov t longPrompt).1.summary) shortPrompt).1.success
  · simp [hr2]
  · simp [hr2]

/-- C7: the short-summary phase of `create_summaries` is fed exactly the
fixed lead-in concatenated with the long-summary text: after a successful
long phase, the call log is the long phase's calls followed by the calls of
`summarize` on `shortLeadIn ++ long_summary`; consequently two input texts
whose long phases yield the same long summary produce identical
short-summary-phase provider calls — the raw document text never reaches the
short-summary call path. -/
theorem createSummaries_short_input (prov : Provider)
    (t1 t2 longPrompt shortPrompt : String)
    (h1 : (summarizeS prov t1 longPrompt).1.success = true)
    (h2 : (summarizeS prov t2 longPrompt).1.success = true)
    (heq : (summarizeS prov t1 longPrompt).1.summary
      = (summarizeS prov t2 longPrompt).1.summary) :
    (createSummaries prov t1 longPrompt shortPrompt).2 =
      (summarizeS prov t1 longPrompt).2
        ++ (summarizeS prov (shortLeadIn ++ (summarizeS prov t1 longPrompt).1.summary)
             shortPrompt).2 ∧
    List.drop (summarizeS prov t1 longPrompt).2.length
        (createSummaries prov t1 longPrompt shortPrompt).2 =
      List.drop (summarizeS prov t2 longPrompt).2.length
        (createSummaries prov t2 longPrompt shortPrompt).2 := by
  refine ⟨createSummaries_calls_split prov t1 longPrompt shortPrompt h1, ?_⟩
  rw [createSummaries_calls_split prov t1 longPrompt shortPrompt h1,
    createSummaries_calls_split prov t2 longPrompt shortPrompt h2,
    List.drop_left, List.drop_left, heq]

theorem createSummaries_short_input_witness :
    ((summarizeS provOk "x" "LP").1.success = true ∧
      (summarizeS provOk "y" "LP").1.success = true ∧
      (summarizeS provOk "x" "LP").1.summary = (summarizeS provOk "y" "LP").1.summary) ∧
    ((createSummaries provOk "x" "LP" "SP").2 =
      (summarizeS provOk "x" "LP").2
        ++ (summarizeS provOk (shortLeadIn ++ (summarizeS provOk "x" "LP").1.summary) "SP").2 ∧
    List.drop (summarizeS provOk "x" "LP").2.length (createSummaries provOk "x" "LP" "SP").2 =
      List.drop (summarizeS provOk "y" "LP").2.length (createSummaries provOk "y" "LP" "SP").2) :=
  ⟨⟨by decide, by decide, by decide⟩,
    createSummaries_short_input provOk "x" "y" "LP" "SP"
      (by decide) (by decide) (by decide)⟩

/-- C8: when the long-summary phase of `create_summaries` succeeds with a
non-empty long summary and the short-summary phase fails, the returned
quadruple is a failure that still carries the computed long summary, with an
empty short summary and the error message — the partial success is surfaced,
not discarded. -/
theorem createSummaries_preserves_long (prov : Provider)
    (text longPrompt shortPrompt : String)
    (h1 : (summarizeS prov text longPrompt).1.success = true)
    (hne : (summarizeS prov text longPrompt).1.summary ≠ "")
    (h2 : (summarizeS prov (shortLeadIn ++ (summarizeS prov text longPrompt).1.summary)
        shortPrompt).1.success = false) :
    (createSummaries prov text longPrompt shortPrompt).1 =
      ⟨false, (summarizeS prov text longPrompt).1.summary, "",
        "Short summary error: "
          ++ (summarizeS prov (shortLeadIn ++ (summarizeS prov text longPrompt).1.summary)
               shortPrompt).1.error⟩ ∧
    (createSummaries prov text longPrompt shortPrompt).1.longSummary ≠ "" := by
  have hmain : (createSummaries prov text longPrompt shortPrompt).1 =
      ⟨false, (summarizeS prov text longPrompt).1.summary, "",
        "Short summary error: "
          ++ (summarizeS prov (shortLeadIn ++ (summarizeS prov text longPrompt).1.summary)
               shortPrompt).1.error⟩ := by
    simp [createSummaries, h1, h2]
  refine ⟨hmain, ?_⟩
  rw [hmain]
  simpa using hne

/-- A provider oracle that fails exactly on the prompt `"SP"` and otherwise
answers `"LONG"`. -/
def provShortFail : Provider :=
  fun _ p => if p = "SP" then ⟨false, "", "boom"⟩ else ⟨true, "LONG", ""⟩

theorem createSummaries_preserves_long_witness :
    ((summarizeS provShortFail "doc" "LP").1.success = true ∧
      (summarizeS provShortFail "doc" "LP").1.summary ≠ "" ∧
      (summarizeS provShortFail
        (shortLeadIn ++ (summarizeS provShortFail "doc" "LP").1.summary) "SP").1.success = false) ∧
    ((createSummaries provShortFail "doc" "LP" "SP").1 =
      ⟨false, (summarizeS provShortFail "doc" "LP").1.summary, "",
        "Short summary error: "
          ++ (summarizeS provShortFail
               (shortLeadIn ++ (summarizeS provShortFail "doc" "LP").1.summary) "SP").1.error⟩ ∧
    (createSummaries provShortFail "doc" "LP" "SP").1.longSummary ≠ "") :=
  ⟨⟨by decide, by decide, by decide⟩,
    createSummaries_preserves_long provShortFail "doc" "LP" "SP"
      (by decide) (by decide) (by decide)⟩

/-! ### Document lifecycle (`app.py`, `process_single_pdf` and
`download_pdf_file`)

The collaborators (`PDFProcessor`, the summarizer, the database) are modelled
as oracles.  Alongside each result a `Trace` records which collaborators were
invoked and which records were inserted into the store via
`database.insert_summary`.  The `try/except` wrappers catch collaborator
exceptions; the oracles are total functions returning explicit
success/failure results, so the `except` branches are unreachable in the
model.  Streamlit status/progress calls have no data effect and are
elided. -/

/-- The `(success, extracted_text, error_message)` triple of
`PDFProcessor.extract_text_and_tables`. -/
structure ExtractResult where
  success : Bool
  text : String
  error : String
deriving DecidableEq, Repr

/-- The `(success, filename, extracted_text, error_message)` quadruple of
`PDFProcessor.process_pdf` (download plus extraction). -/
structure ProcessPdfResult where
  success : Bool
  filename : String
  text : String
  error : String
deriving DecidableEq, Repr

/-- An Attempt Record as built by `process_single_pdf` and handed to
`database.insert_summary`. -/
structure AttemptRecord where
  url : String
  filename : String
  long_summary : String
  short_summary : String
  status : String
  error_message : String
  created_at : String
deriving DecidableEq, Repr

/-- The collaborators of the lifecycle functions, as oracles:
`expectedFilename` is `pdf_processor.get_expected_filename`, `fileExists` is
`pdf_processor.file_exists`, `extractTextAndTables` is
`pdf_processor.extract_text_and_tables` (keyed by file path),
`processPdf` is `pdf_processor.process_pdf` (the download collaborator), and
`createSummariesFn` is `summarizer.create_summaries` on
`(extracted_text, long_prompt, short_prompt)`. -/
structure Collaborators where
  expectedFilename : String → String
  fileExists : String → Bool
  extractTextAndTables : String → ExtractResult
  processPdf : String → ProcessPdfResult
  createSummariesFn : String → String → String → SummariesResult

/-- Which collaborators a lifecycle run invoked and what it inserted into the
store.  `downloadInvoked` is true when `pdf_processor.process_pdf` was
called; `extractInvoked` when `pdf_processor.extract_text_and_tables` was
called directly (extraction inside `process_pdf` is the collaborator's
internals); `inserted` lists the records passed to
`database.insert_summary`, in order. -/
structure Trace where
  downloadInvoked : Bool
  extractInvoked : Bool
  summarizeInvoked : Bool
  inserted : List AttemptRecord
deriving DecidableEq, Repr

/-- The download folder fixed by `initialize_components`
(`PDFProcessor(download_folder="files")`) joined as in
`os.path.join(pdf_processor.download_folder, filename)`. -/
def filesPath (filename : String) : String := "files/" ++ filename

/-- The summarization-and-persistence tail of `process_single_pdf` (app.py
lines 266-291), shared by its two entry paths; `downloaded` tells which path
was taken (false: existing file re-extracted; true: downloaded via
`process_pdf`). -/
def processSummarizeTail (c : Collaborators) (r0 : AttemptRecord)
    (filename text longPrompt shortPrompt : String) (downloaded : Bool) :
    AttemptRecord × Trace :=
  let sres := c.createSummariesFn text longPrompt shortPrompt
  if !sres.success then
    let r := { r0 with
      filename := filename, error_message := sres.error,
      long_summary := "FAILED: " ++ sres.error,
      short_summary := "FAILED: " ++ sres.error }
    (r, ⟨downloaded, !downloaded, true, [r]⟩)
  else
    let r := { r0 with
      filename := filename, long_summary := sres.longSummary,
      short_summary := sres.shortSummary, status := "success" }
    (r, ⟨downloaded, !downloaded, true, [r]⟩)

/-- `process_single_pdf(url, …, skip_existing)` (app.py lines 195-299).  The
initial record has `status='failed'` and empty fields (lines 214-222); the
skip path (lines 229-233) returns `status='skipped'` without extraction,
summarization, or any `insert_summary`; the existing-file path extracts and
on failure inserts a failed record with the `FAILED:` summaries (lines
236-248); the download path calls `process_pdf` and on failure likewise
inserts (lines 250-260); otherwise summarization and persistence follow
(lines 266-291). -/
def processSinglePdf (c : Collaborators) (url longPrompt shortPrompt : String)
    (skipExisting : Bool) (now : String) : AttemptRecord × Trace :=
  let expected := c.expectedFilename url
  let fileEx := c.fileExists expected
  let r0 : AttemptRecord := ⟨url, "", "", "", "failed", "", now⟩
  if fileEx && skipExisting then
    ({ r0 with filename := expected, status := "skipped" },
      ⟨false, false, false, []⟩)
  else if fileEx then
    let er := c.extractTextAndTables (filesPath expected)
    if !er.success then
      let r := { r0 with
        error_message := er.error,
        long_summary := "FAILED: " ++ er.error,
        short_summary := "FAILED: " ++ er.error }
      (r, ⟨false, true, false, [r]⟩)
    else
      let out := processSummarizeTail c r0 expected er.text longPrompt shortPrompt false
      (out.1, { out.2 with extractInvoked := true })
  else
    let dr := c.processPdf url
    if !dr.success then
      let r := { r0 with
        error_message := dr.error,
        long_summary := "FAILED: " ++ dr.error,
        short_summary := "FAILED: " ++ dr.error }
      (r, ⟨true, false, false, [r]⟩)
    else
      processSummarizeTail c r0 dr.filename dr.text longPrompt shortPrompt true

/-- The result dictionary of `download_pdf_file` (app.py lines 71-81). -/
structure DownloadRecord where
  url : String
  filename : String
  extracted_text : String
  download_status : String
  download_error : String
  summary_status : String
  long_summary : String
  short_summary : String
  summary_error : String
deriving DecidableEq, Repr

/-- `download_pdf_file(url, pdf_processor, skip_existing)` (app.py lines
59-123).  The skip path (lines 88-99) marks the record `skipped`, still
extracts text from the existing file, and downgrades to `failed` when that
extraction fails; with the file present but `skip_existing` false the
existing file is re-extracted; otherwise `process_pdf` downloads and
extracts.  No record is inserted by this function. -/
def downloadPdfFile (c : Collaborators) (url : String) (skipExisting : Bool) :
    DownloadRecord × Trace :=
  let expected := c.expectedFilename url
  let fileEx := c.fileExists expected
  let r0 : DownloadRecord := ⟨url, "", "", "pending", "", "pending", "", "", ""⟩
  if fileEx && skipExisting then
    let r1 := { r0 with filename := expected, download_status := "skipped" }
    let er := c.extractTextAndTables (filesPath expected)
    if er.success then
      ({ r1 with extracted_text := er.text }, ⟨false, true, false, []⟩)
    else
      ({ r1 with
          download_status := "failed",
          download_error := "Text extraction failed: " ++ er.error },
        ⟨false, true, false, []⟩)
  else if fileEx then
    let er := c.extractTextAndTables (filesPath expected)
    if !er.success then
      ({ r0 with download_status := "failed", download_error := er.error },
        ⟨false, true, false, []⟩)
    else
      ({ r0 with
          filename := expected, extracted_text := er.text,
          download_status := "success" }, ⟨false, true, false, []⟩)
  else
    let dr := c.processPdf url
    if !dr.success then
      ({ r0 with download_status := "failed", download_error := dr.error },
        ⟨true, false, false, []⟩)
    else
      ({ r0 with
          filename := dr.filename, extracted_text := dr.text,
          download_status := "success" }, ⟨true, false, false, []⟩)

/-- Collaborators for which everything succeeds: the file is present,
extraction and download succeed, and summarization succeeds. -/
def collabAllOk : Collaborators :=
  ⟨fun u => u, fun _ => true, fun _ => ⟨true, "T", ""⟩,
    fun _ => ⟨true, "f.pdf", "T", ""⟩, fun _ _ _ => ⟨true, "L", "S", ""⟩⟩

/-- C1 counterexample: with the file present and skip-existing enabled,
`process_single_pdf` ends in the terminal outcome `skipped` yet inserts no
Attempt Record at all (app.py lines 229-233 return before any
`insert_summary`). -/
theorem processSinglePdf_skip_unpersisted :
    (processSinglePdf collabAllOk "u" "LP" "SP" true "t0").1.status = "skipped" ∧
    (processSinglePdf collabAllOk "u" "LP" "SP" true "t0").2.inserted = [] := by
  decide

/-- C1 (amended): `process_single_pdf` appends exactly one Attempt Record —
the returned one — at every `success` or `failed` terminal outcome, and
appends none at a plain `skipped` outcome. -/
theorem processSinglePdf_persistence (c : Collaborators)
    (url lp sp now : String) (skip : Bool) :
    ((processSinglePdf c url lp sp skip now).1.status ≠ "skipped" →
      (processSinglePdf c url lp sp skip now).2.inserted
        = [(processSinglePdf c url lp sp skip now).1]) ∧
    ((processSinglePdf c url lp sp skip now).1.status = "skipped" →
      (processSinglePdf c url lp sp skip now).2.inserted = []) := by
  simp only [processSinglePdf, processSummarizeTail]
  split_ifs <;> constructor <;> intro h <;> simp_all

/-- Collaborators whose download step (`process_pdf`) fails. -/
def collabDlFail : Collaborators :=
  ⟨fun u => u, fun _ => false, fun _ => ⟨true, "T", ""⟩,
    fun _ => ⟨false, "", "", "dl boom"⟩, fun _ _ _ => ⟨true, "L", "S", ""⟩⟩

theorem processSinglePdf_persistence_witness :
    (processSinglePdf collabDlFail "u" "LP" "SP" true "t0").1.status ≠ "skipped" ∧
    (processSinglePdf collabDlFail "u" "LP" "SP" true "t0").2.inserted
      = [(processSinglePdf collabDlFail "u" "LP" "SP" true "t0").1] :=
  ⟨by decide,
    (processSinglePdf_persistence collabDlFail "u" "LP" "SP" "t0" true).1 (by decide)⟩

/-- Collaborators whose summarization returns the quadruple
`create_summaries` yields when the long phase succeeded and the short phase
failed: failure carrying the long summary. -/
def collabShortFail : Collaborators :=
  ⟨fun u => u, fun _ => true, fun _ => ⟨true, "T", ""⟩,
    fun _ => ⟨true, "f.pdf", "T", ""⟩,
    fun _ _ _ => ⟨false, "THE LONG", "", "Short summary error: boom"⟩⟩

/-- C2 counterexample: when summarization fails with a long summary already
computed (short-summary step failed), the record `process_single_pdf`
persists has status `failed` but a NON-empty `short_summary`
(`"FAILED: …"`), and its `long_summary` is the `"FAILED: …"` marker, not the
computed long-summary text — both parts of the claim fail on the code
(app.py lines 273-279 overwrite both fields). -/
theorem processSinglePdf_discards_long :
    (processSinglePdf collabShortFail "u" "LP" "SP" false "t0").1.status = "failed" ∧
    (processSinglePdf collabShortFail "u" "LP" "SP" false "t0").1.short_summary ≠ "" ∧
    (processSinglePdf collabShortFail "u" "LP" "SP" false "t0").1.long_summary
      ≠ "THE LONG" ∧
    (processSinglePdf collabShortFail "u" "LP" "SP" false "t0").2.inserted
      = [(processSinglePdf collabShortFail "u" "LP" "SP" false "t0").1] := by
  decide

/-- The extracted text that reaches the summarization step of
`process_single_pdf`: from the existing file when it is present, otherwise
from `process_pdf`. -/
def lifecycleText (c : Collaborators) (url : String) : String :=
  if c.fileExists (c.expectedFilename url) then
    (c.extractTextAndTables (filesPath (c.expectedFilename url))).text
  else (c.processPdf url).text

/-- C2 (amended): when summarization fails, the persisted Attempt Record has
status `failed`, `error_message` set to the failure's error, and BOTH
`long_summary` and `short_summary` set to `"FAILED: " ++ error`; the long
summary text returned by `create_summaries` is not persisted. -/
theorem processSinglePdf_summarize_failure (c : Collaborators)
    (url lp sp now : String) (skip : Bool)
    (hnoskip : c.fileExists (c.expectedFilename url) = true → skip = false)
    (hex : c.fileExists (c.expectedFilename url) = true →
      (c.extractTextAndTables (filesPath (c.expectedFilename url))).success = true)
    (hdl : c.fileExists (c.expectedFilename url) = false →
      (c.processPdf url).success = true)
    (hfail : (c.createSummariesFn (lifecycleText c url) lp sp).success = false) :
    (processSinglePdf c url lp sp skip now).1.status = "failed" ∧
    (processSinglePdf c url lp sp skip now).1.error_message
      = (c.createSummariesFn (lifecycleText c url) lp sp).error ∧
    (processSinglePdf c url lp sp skip now).1.long_summary
      = "FAILED: " ++ (c.createSummariesFn (lifecycleText c url) lp sp).error ∧
    (processSinglePdf c url lp sp skip now).1.short_summary
      = "FAILED: " ++ (c.createSummariesFn (lifecycleText c url) lp sp).error ∧
    (processSinglePdf c url lp sp skip now).2.inserted
      = [(processSinglePdf c url lp sp skip now).1] := by
  by_cases hfe : c.fileExists (c.expectedFilename url) = true
  · have hs := hnoskip hfe
    subst hs
    simp only [lifecycleText, hfe, if_true] at hfail
    simp [processSinglePdf, processSummarizeTail, hfe, hex hfe, hfail,
      lifecycleText]
  · have hfe' : c.fileExists (c.expectedFilename url) = false :=
      Bool.not_eq_true _ ▸ eq_false_of_ne_true hfe
    simp only [lifecycleText, hfe', if_false, Bool.false_eq_true] at hfail
    simp [processSinglePdf, processSummarizeTail, hfe', hdl hfe', hfail,
      lifecycleText]

theorem processSinglePdf_summarize_failure_witness :
    ((collabShortFail.fileExists (collabShortFail.expectedFilename "u") = true →
        false = false) ∧
      (collabShortFail.fileExists (collabShortFail.expectedFilename "u") = true →
        (collabShortFail.extractTextAndTables
          (filesPath (collabShortFail.expectedFilename "u"))).success = true) ∧
      (collabShortFail.fileExists (collabShortFail.expectedFilename "u") = false →
        (collabShortFail.processPdf "u").success = true) ∧
      (collabShortFail.createSummariesFn (lifecycleText collabShortFail "u")
        "LP" "SP").success = false) ∧
    ((processSinglePdf collabShortFail "u" "LP" "SP" false "t0").1.status = "failed" ∧
      (processSinglePdf collabShortFail "u" "LP" "SP" false "t0").1.error_message
        = (collabShortFail.createSummariesFn (lifecycleText collabShortFail "u")
            "LP" "SP").error ∧
      (processSinglePdf collabShortFail "u" "LP" "SP" false "t0").1.long_summary
        = "FAILED: " ++ (collabShortFail.createSummariesFn
            (lifecycleText collabShortFail "u") "LP" "SP").error ∧
      (processSinglePdf collabShortFail "u" "LP" "SP" false "t0").1.short_summary
        = "FAILED: " ++ (collabShortFail.createSummariesFn
            (lifecycleText collabShortFail "u") "LP" "SP").error ∧
      (processSinglePdf collabShortFail "u" "LP" "SP" false "t0").2.inserted
        = [(processSinglePdf collabShortFail "u" "LP" "SP" false "t0").1]) :=
  ⟨⟨by decide, by decide, by decide, by decide⟩,
    processSinglePdf_summarize_failure collabShortFail "u" "LP" "SP" "t0" false
      (by decide) (by decide) (by decide) (by decide)⟩

/-- C3 counterexample: in the skip path of `process_single_pdf` (file
present, skip-existing enabled) NO text extraction is performed — the
function returns `status='skipped'` immediately (app.py lines 229-233),
contradicting the claim that extraction is still performed for every skipped
document. -/
theorem processSinglePdf_skip_no_extraction :
    (processSinglePdf collabAllOk "u" "LP" "SP" true "t0").2.extractInvoked = false ∧
    (processSinglePdf collabAllOk "u" "LP" "SP" true "t0").2.downloadInvoked = false ∧
    (processSinglePdf collabAllOk "u" "LP" "SP" true "t0").1.status = "skipped" := by
  decide

/-- C3 (amended): with the derived file present and skip-existing enabled,
neither lifecycle function ever invokes the download collaborator; in
`download_pdf_file` extraction is still performed on the existing file and
the outcome is `skipped` (or `failed` when that extraction fails), while in
`process_single_pdf` the skip path returns `skipped` without performing
extraction. -/
theorem skip_existing_no_download (c : Collaborators) (url lp sp now : String)
    (hfe : c.fileExists (c.expectedFilename url) = true) :
    (downloadPdfFile c url true).2.downloadInvoked = false ∧
    (downloadPdfFile c url true).2.extractInvoked = true ∧
    ((c.extractTextAndTables (filesPath (c.expectedFilename url))).success = true →
      (downloadPdfFile c url true).1.download_status = "skipped" ∧
      (downloadPdfFile c url true).1.extracted_text
        = (c.extractTextAndTables (filesPath (c.expectedFilename url))).text) ∧
    ((c.extractTextAndTables (filesPath (c.expectedFilename url))).success = false →
      (downloadPdfFile c url true).1.download_status = "failed") ∧
    (processSinglePdf c url lp sp true now).2.downloadInvoked = false ∧
    (processSinglePdf c url lp sp true now).2.extractInvoked = false ∧
    (processSinglePdf c url lp sp true now).1.status = "skipped" := by
  by_cases he : (c.extractTextAndTables (filesPath (c.expectedFilename url))).success = true
  · simp [downloadPdfFile, processSinglePdf, hfe, he]
  · simp [downloadPdfFile, processSinglePdf, hfe, he]

theorem skip_existing_no_download_witness :
    collabAllOk.fileExists (collabAllOk.expectedFilename "u") = true ∧
    ((downloadPdfFile collabAllOk "u" true).2.downloadInvoked = false ∧
      (downloadPdfFile collabAllOk "u" true).2.extractInvoked = true ∧
      ((collabAllOk.extractTextAndTables
          (filesPath (collabAllOk.expectedFilename "u"))).success = true →
        (downloadPdfFile collabAllOk "u" true).1.download_status = "skipped" ∧
        (downloadPdfFile collabAllOk "u" true).1.extracted_text
          = (collabAllOk.extractTextAndTables
              (filesPath (collabAllOk.expectedFilename "u"))).text) ∧
      ((collabAllOk.extractTextAndTables
          (filesPath (collabAllOk.expectedFilename "u"))).success = false →
        (downloadPdfFile collabAllOk "u" true).1.download_status = "failed") ∧
      (processSinglePdf collabAllOk "u" "LP" "SP" true "t0").2.downloadInvoked = false ∧
      (processSinglePdf collabAllOk "u" "LP" "SP" true "t0").2.extractInvoked = false ∧
      (processSinglePdf collabAllOk "u" "LP" "SP" true "t0").1.status = "skipped") :=
  ⟨by decide, skip_existing_no_download collabAllOk "u" "LP" "SP" "t0" (by decide)⟩

/-! ### Filename derivation (`pdf_processor.py`,
`PDFProcessor._get_filename_from_url`)

Python's built-in `hash` on strings is salted per process
(`PYTHONHASHSEED`): the same URL hashes to different values in different
runs.  The embedding therefore takes the process's string-hash function as
an explicit parameter `pyhash`.  `urlparse` and `os.path.basename` are
modelled for the URL shapes the tool consumes
(`scheme://netloc/path?query#fragment` or bare paths). -/

/-- The character replacement of `_sanitize_filename`
(`re.sub(r'[<>:"/\\|?*]', '_', filename)`). -/
def sanitizeChar (ch : Char) : Char :=
  if ch == '<' || ch == '>' || ch == ':' || ch == '"' || ch == '/'
      || ch == '\\' || ch == '|' || ch == '?' || ch == '*' then '_' else ch

/-- `os.path.splitext` for a path without separators: split before the last
dot that has some non-dot character before it (leading dots never start an
extension). -/
def splitext (f : String) : String × String :=
  let cs := f.data
  let dots := (List.range cs.length).filter
    (fun k => cs.getD k ' ' == '.' && (cs.take k).any (fun ch => ch != '.'))
  match dots.getLast? with
  | none => (f, "")
  | some k => (String.mk (cs.take k), String.mk (cs.drop k))

/-- `PDFProcessor._sanitize_filename` (pdf_processor.py lines 30-46):
replace invalid characters by `_`; if longer than 200 characters, keep the
first 196 characters of the stem plus the extension. -/
def sanitizeFilename (filename : String) : String :=
  let f := String.mk (filename.data.map sanitizeChar)
  if f.length > 200 then
    let ne := splitext f
    String.mk (ne.1.data.take 196) ++ ne.2
  else f

/-- Scans for the first `://` and returns what follows, if any. -/
def afterSchemeAux : List Char → Option (List Char)
  | ':' :: '/' :: '/' :: rest => some rest
  | _ :: rest => afterSchemeAux rest
  | [] => none

/-- `urlparse(url).path`: strip fragment and query; with a `scheme://netloc`
head, the path starts at the first `/` after the authority (empty if none);
otherwise the remaining string is the path. -/
def urlPath (url : String) : String :=
  let cs := (url.data.takeWhile (fun ch => ch ≠ '#')).takeWhile (fun ch => ch ≠ '?')
  match afterSchemeAux cs with
  | none => String.mk cs
  | some rest => String.mk (rest.dropWhile (fun ch => ch ≠ '/'))

/-- `os.path.basename`: everything after the last `/` (the whole string when
there is no `/`). -/
def pyBasename (p : String) : String :=
  String.mk (p.data.reverse.takeWhile (fun ch => ch ≠ '/')).reverse

/-- Python's `str.endswith`. -/
def pyEndsWith (s suffix : String) : Bool :=
  suffix.data.isSuffixOf s.data

/-- `PDFProcessor._get_filename_from_url(url)` (pdf_processor.py lines
48-65): take the basename of the parsed URL path; if it is empty or does not
end in `.pdf`, fall back to `"document_" + str(hash(url) % 100000) + ".pdf"`
with the process-local string hash `pyhash`; sanitize the result. -/
def getFilenameFromUrl (pyhash : String → Int) (url : String) : String :=
  let filename := pyBasename (urlPath url)
  let filename :=
    if filename == "" || !(pyEndsWith filename ".pdf") then
      "document_" ++ toString (pyhash url % 100000) ++ ".pdf"
    else filename
  sanitizeFilename filename

/-- C9 counterexample: for a URL whose path has no `.pdf` basename, two
process hash functions (two runs with different hash seeds) derive different
filenames — the fallback name is not deterministic across processes. -/
theorem getFilenameFromUrl_process_dependent :
    getFilenameFromUrl (fun _ => 0) "https://example.com/download"
      ≠ getFilenameFromUrl (fun _ => 1) "https://example.com/download" := by
  decide

/-- C9 (amended): the derived filename is independent of the process hash —
hence identical across runs and processes — whenever the URL path has a
non-empty basename ending in `.pdf`; only the fallback path (no usable
`.pdf` basename) depends on the process-local hash of the URL, so the
fallback name is stable only within one process. -/
theorem getFilenameFromUrl_pdf_deterministic (h1 h2 : String → Int)
    (url : String)
    (hpdf : (pyBasename (urlPath url) == ""
        || !(pyEndsWith (pyBasename (urlPath url)) ".pdf")) = false) :
    getFilenameFromUrl h1 url = getFilenameFromUrl h2 url := by
  simp only [getFilenameFromUrl, hpdf, Bool.false_eq_true, if_false]

theorem getFilenameFromUrl_pdf_deterministic_witness :
    (pyBasename (urlPath "https://example.com/report.pdf") == ""
        || !(pyEndsWith (pyBasename (urlPath "https://example.com/report.pdf")) ".pdf"))
      = false ∧
    getFilenameFromUrl (fun _ => 0) "https://example.com/report.pdf"
      = getFilenameFromUrl (fun _ => 1) "https://example.com/report.pdf" :=
  ⟨by decide,
    getFilenameFromUrl_pdf_deterministic (fun _ => 0) (fun _ => 1)
      "https://example.com/report.pdf" (by decide)⟩
